import Mathlib

/-!
Verification development for gumlet/video-manifest-parser.

Shallow embedding of the two editors of the repository:
* `MPDEditor` (DASH manifests), translated from the MPDEditor class;
* `M3U8Editor` (HLS master playlists), translated from src/m3u8-editor.ts.

JavaScript machine numbers are modelled by `Rat`/`Int` (all inputs exercised
here are small integers, where IEEE doubles are exact); the degenerate
division results of JavaScript (`Infinity`, `-Infinity`, `NaN`) are modelled
explicitly at the one division site of the code.  The two external libraries
(fast-xml-parser and m3u8-parser) are black boxes for the repository; where a
claim needs them they are modelled from the collaborator contract of the
specification and documented as such.
-/

/-- JavaScript `parseInt(s)` (radix 10): skip leading whitespace, optional
sign, then the longest digit run; `none` models `NaN`. -/
def jsParseInt (s : String) : Option Int :=
  let cs := s.toList.dropWhile (fun c => c == ' ' || c == '\t' || c == '\n' || c == '\r')
  let signAndRest : Int × List Char :=
    match cs with
    | '-' :: r => (-1, r)
    | '+' :: r => (1, r)
    | r => (1, r)
  let digits := signAndRest.2.takeWhile Char.isDigit
  if digits.isEmpty then none
  else some (signAndRest.1 * Int.ofNat (digits.foldl (fun acc c => acc * 10 + (c.toNat - 48)) 0))

/-- JavaScript `Number(s)` restricted to the integer strings this program
meets: empty/whitespace is `0`, optional sign plus digits is the value,
anything else is `NaN` (`none`). -/
def jsNumber (s : String) : Option Int :=
  let cs := s.toList.dropWhile (fun c => c == ' ' || c == '\t' || c == '\n' || c == '\r')
  if cs.isEmpty then some 0
  else
    let signAndRest : Int × List Char :=
      match cs with
      | '-' :: r => (-1, r)
      | '+' :: r => (1, r)
      | r => (1, r)
    if signAndRest.2 ≠ [] && signAndRest.2.all Char.isDigit then
      some (signAndRest.1 * Int.ofNat (signAndRest.2.foldl (fun acc c => acc * 10 + (c.toNat - 48)) 0))
    else none

/-- DASH `Representation` of the MPD model (named with the `MPD` marker
because plain `Representation` is already taken by Mathlib).  Field order
follows the object literal of the source. -/
structure MPDRepresentation where
  id : String
  bandwidth : String
  codecs : String
  mimeType : String
  audioSamplingRate : Option String := none
  width : Option String := none
  height : Option String := none
deriving Repr, DecidableEq

/-- DASH `AdaptationSet`.  The source declares a single `Representation`
object, but the XML parse tree may hold one object or an array and
`resetIds` normalises over both; the model holds the uniform list. -/
structure AdaptationSet where
  id : String
  contentType : String
  lang : Option String := none
  Representation : List MPDRepresentation
deriving Repr, DecidableEq

/-- The `Period` wrapper of the MPD tree. -/
structure MPDPeriod where
  AdaptationSet : List AdaptationSet
deriving Repr, DecidableEq

/-- The owned MPD document: `{ Period: { AdaptationSet: [...] } }`. -/
structure MPD where
  Period : MPDPeriod
deriving Repr, DecidableEq

/-- The MPDEditor state: its owned `mpd` document. -/
structure MPDEditor where
  mpd : MPD
deriving Repr, DecidableEq

/-- `getNextAdaptationSetId`: parse every current id, drop the NaN ones,
return `max + 1` (or `0` on an empty collection) as a string. -/
def MPDEditor.getNextAdaptationSetId (ed : MPDEditor) : String :=
  let ids := (ed.mpd.Period.AdaptationSet.map (fun s => jsParseInt s.id)).filterMap id
  match ids with
  | [] => "0"
  | x :: xs => Int.repr (xs.foldl max x + 1)

/-- `getNextRepresentationId`: same allocation over the representations of
every adaptation set. -/
def MPDEditor.getNextRepresentationId (ed : MPDEditor) : String :=
  let reps := ed.mpd.Period.AdaptationSet.flatMap (fun s => s.Representation)
  let ids := (reps.map (fun r => jsParseInt r.id)).filterMap id
  match ids with
  | [] => "0"
  | x :: xs => Int.repr (xs.foldl max x + 1)

/-- First pass of `resetIds`: assign each adaptation set its index. -/
def resetAdaptationIds : Nat → List AdaptationSet → List AdaptationSet
  | _, [] => []
  | i, s :: rest => { s with id := Nat.repr i } :: resetAdaptationIds (i + 1) rest

/-- Second pass of `resetIds`: assign each representation its index. -/
def resetRepIds : Nat → List MPDRepresentation → List MPDRepresentation
  | _, [] => []
  | i, r :: rest => { r with id := Nat.repr i } :: resetRepIds (i + 1) rest

/-- `resetIds`: renumber adaptation-set ids by position, then renumber each
set's representation ids by position. -/
def MPDEditor.resetIds (doc : MPD) : MPD :=
  let pass1 := resetAdaptationIds 0 doc.Period.AdaptationSet
  let pass2 := pass1.map (fun s => { s with Representation := resetRepIds 0 s.Representation })
  { Period := { AdaptationSet := pass2 } }

/-- `addAudioStream`: append a freshly numbered audio adaptation set. -/
def MPDEditor.addAudioStream (ed : MPDEditor) (lang bandwidth codecs audioSamplingRate mimeType : String) : MPDEditor :=
  let audioSet : AdaptationSet :=
    { id := ed.getNextAdaptationSetId
      contentType := "audio"
      lang := some lang
      Representation := [
        { id := ed.getNextRepresentationId
          bandwidth := bandwidth
          codecs := codecs
          mimeType := mimeType
          audioSamplingRate := some audioSamplingRate }] }
  { mpd := { Period := { AdaptationSet := ed.mpd.Period.AdaptationSet ++ [audioSet] } } }

/-- The bandwidth string stored by `addSubtitleStream`:
`Math.round((8 * vttFileSize) / videoDuration).toString()`, with the
JavaScript division-by-zero outcomes made explicit and `Math.round x`
modelled as `⌊x + 1/2⌋` (the exact JavaScript rule, rounding half up). -/
def jsSubtitleBandwidth (vttFileSize videoDuration : ℚ) : String :=
  if videoDuration = 0 then
    if 8 * vttFileSize = 0 then "NaN"
    else if 0 < 8 * vttFileSize then "Infinity"
    else "-Infinity"
  else Int.repr ⌊8 * vttFileSize / videoDuration + 1 / 2⌋

/-- `addSubtitleStream(lang, vttFileSize, videoDuration)`. -/
def MPDEditor.addSubtitleStream (ed : MPDEditor) (lang : String) (vttFileSize videoDuration : ℚ) : MPDEditor :=
  let subtitleSet : AdaptationSet :=
    { id := ed.getNextAdaptationSetId
      contentType := "text"
      lang := some lang
      Representation := [
        { id := ed.getNextRepresentationId
          bandwidth := jsSubtitleBandwidth vttFileSize videoDuration
          codecs := "stpp"
          mimeType := "text/vtt" }] }
  { mpd := { Period := { AdaptationSet := ed.mpd.Period.AdaptationSet ++ [subtitleSet] } } }

/-- `removeAudioStream(lang)`: keep a set when it is not audio or its
language differs, then renumber. -/
def MPDEditor.removeAudioStream (ed : MPDEditor) (lang : String) : MPDEditor :=
  let kept := ed.mpd.Period.AdaptationSet.filter
    (fun s => s.contentType != "audio" || s.lang != some lang)
  { mpd := MPDEditor.resetIds { Period := { AdaptationSet := kept } } }

/-- `removeSubtitleStream(lang)`. -/
def MPDEditor.removeSubtitleStream (ed : MPDEditor) (lang : String) : MPDEditor :=
  let kept := ed.mpd.Period.AdaptationSet.filter
    (fun s => s.contentType != "text" || s.lang != some lang)
  { mpd := MPDEditor.resetIds { Period := { AdaptationSet := kept } } }

/-- One XML attribute as the external builder prints it. -/
def xmlAttr (name value : String) : String :=
  " " ++ name ++ "=\"" ++ value ++ "\""

/-- Optional XML attribute: omitted when the field is absent. -/
def xmlOptAttr (name : String) : Option String → String
  | some v => xmlAttr name v
  | none => ""

/-- Modelled from the spec: `toXML` delegates to the external XML builder
(fast-xml-parser `XMLBuilder`, a black box for this repository).  The model
is a deterministic emitter that prints every attribute of the tree in
declaration order; the pretty-printing whitespace of the real builder is not
reproduced, the information content of the output is. -/
def mpdRepresentationTag (r : MPDRepresentation) : String :=
  "<Representation" ++ xmlAttr "id" r.id ++ xmlAttr "bandwidth" r.bandwidth ++
    xmlAttr "codecs" r.codecs ++ xmlAttr "mimeType" r.mimeType ++
    xmlOptAttr "audioSamplingRate" r.audioSamplingRate ++
    xmlOptAttr "width" r.width ++ xmlOptAttr "height" r.height ++
    "></Representation>"

/-- XML text of one adaptation set (same modelled builder). -/
def adaptationSetTag (s : AdaptationSet) : String :=
  "<AdaptationSet" ++ xmlAttr "id" s.id ++ xmlAttr "contentType" s.contentType ++
    xmlOptAttr "lang" s.lang ++ ">" ++
    String.join (s.Representation.map mpdRepresentationTag) ++
    "</AdaptationSet>"

/-- `toXML()`: the serialized document (modelled builder, see above). -/
def MPDEditor.toXML (ed : MPDEditor) : String :=
  "<Period>" ++ String.join (ed.mpd.Period.AdaptationSet.map adaptationSetTag) ++ "</Period>"

/-- The `Period` node of the external XML parse tree: its `AdaptationSet`
entry may be absent. -/
structure MPDPeriodTree where
  AdaptationSet : Option (List AdaptationSet) := none
deriving Repr, DecidableEq

/-- The external XML parse tree handed to the MPDEditor constructor: the
`Period` node may be absent (malformed or foreign root). -/
structure ParsedMPDTree where
  Period : Option MPDPeriodTree := none
deriving Repr, DecidableEq

/-- The MPDEditor constructor after the external parse:
`{ Period: { AdaptationSet: parsed.Period?.AdaptationSet || [] } }`.
It contains no throw site: a missing `Period` or `AdaptationSet` defaults to
the empty list. -/
def MPDEditor.construct (parsed : ParsedMPDTree) : MPDEditor :=
  { mpd := { Period := { AdaptationSet :=
      (parsed.Period.bind MPDPeriodTree.AdaptationSet).getD [] } } }

/-- `MPDEditor.validateRoundTrip(mpdString)` (static): build an editor,
serialize, rebuild from the output, and compare the second serialization
with the first.  The external XML parse is the function argument `pf`. -/
def MPDEditor.validateRoundTrip (pf : String → ParsedMPDTree) (mpdString : String) : Bool :=
  let editor := MPDEditor.construct (pf mpdString)
  let rebuilt := editor.toXML
  let rebuiltEditor := MPDEditor.construct (pf rebuilt)
  rebuiltEditor.toXML == rebuilt

/-- Modelled from the spec: the external XML tokenizer on input whose
`Period` carries no adaptation sets (for instance the serialization of an
empty document) yields a tree without an `AdaptationSet` array.  This
instance is only ever applied to such strings. -/
def mpdParseEmptyModel : String → ParsedMPDTree :=
  fun _ => { Period := some { AdaptationSet := none } }

/-- An MPD editor over the empty document. -/
def mpdEmptyEditor : MPDEditor :=
  { mpd := { Period := { AdaptationSet := [] } } }

/-- Media types of the M3U8 model. -/
inductive MediaType where
  | audio
  | SUBTITLES
  | CLOSED_CAPTIONS
deriving Repr, DecidableEq

/-- The serialized text of a media type. -/
def mediaTypeText : MediaType → String
  | .audio => "AUDIO"
  | .SUBTITLES => "SUBTITLES"
  | .CLOSED_CAPTIONS => "CLOSED_CAPTIONS"

/-- One HLS rendition (`Media` interface), field order as in the source. -/
structure Media where
  type : MediaType
  group_id : String
  language : String
  name : String
  uri : String
  default : Option Bool := none
  autoselect : Option Bool := none
  channels : Option Int := none
deriving Repr, DecidableEq

/-- Resolution of an I-frame stream.  The components come from
`RESOLUTION.split('x').map(Number)`, so either may be `NaN` (`none`). -/
structure IFrameResolution where
  width : Option Int := none
  height : Option Int := none
deriving Repr, DecidableEq

/-- `IFrameStream` interface.  `bandwidth`/`averageBandwidth` are `parseInt`
results (`none` is `NaN`). -/
structure IFrameStream where
  bandwidth : Option Int := none
  averageBandwidth : Option Int := none
  codecs : String
  resolution : IFrameResolution
  videoRange : Option String := none
  uri : String
  internalId : Option String := none
deriving Repr, DecidableEq

/-- `RESOLUTION` attribute of a video variant as the external HLS parse tree
holds it: an object with numeric `width`/`height`. -/
structure PlaylistResolution where
  width : Int
  height : Int
deriving Repr, DecidableEq

/-- Attribute bag of a video variant (`playlist.attributes` of the external
parse tree); only the keys the code reads are modelled, each optional
because the tree may lack it.  The dashed source keys (`AVERAGE-BANDWIDTH`,
`FRAME-RATE`, `VIDEO-RANGE`, `CLOSED-CAPTIONS`) are camel-cased. -/
structure PlaylistAttributes where
  bandwidth : Option Int := none
  averageBandwidth : Option Int := none
  codecs : Option String := none
  resolution : Option PlaylistResolution := none
  frameRate : Option String := none
  videoRange : Option String := none
  audio : Option String := none
  subtitles : Option String := none
  closedCaptions : Option String := none
deriving Repr, DecidableEq

/-- One video variant of the external parse tree. -/
structure Playlist where
  attributes : PlaylistAttributes
  uri : String
deriving Repr, DecidableEq

/-- `MediaGroups` interface: the four custom lists of the editor. -/
structure MediaGroups where
  audio : List Media := []
  subtitles : List Media := []
  closedCaptions : List Media := []
  iFrameStreams : List IFrameStream := []
deriving Repr, DecidableEq

/-- `UriList` interface returned by `getMediaUris`. -/
structure UriList where
  audio : List String
  subtitles : List String
  closedCaptions : List String
  video : List String
  iframe : List String
deriving Repr, DecidableEq

/-- The M3U8Editor state: original input text, the playlist list of the
external parse tree (mutated in place by the code), and the custom media
group lists. -/
structure M3U8Editor where
  manifestString : String
  playlists : List Playlist
  mediaGroups : MediaGroups
deriving Repr, DecidableEq

/-- One parsed `EXT-X-MEDIA` value of the external parse tree
(`manifest.mediaGroups[TYPE][groupId][name]`): the fields the code reads. -/
structure ParsedMediaValue where
  language : String
  uri : String
  default : Option Bool := none
  autoselect : Option Bool := none
deriving Repr, DecidableEq

/-- `manifest.mediaGroups` of the external parse tree: for each media type,
the group-id keyed entries in insertion order (the source key
`CLOSED-CAPTIONS` is camel-cased). -/
structure ParsedMediaGroups where
  audio : List (String × List ParsedMediaValue) := []
  SUBTITLES : List (String × List ParsedMediaValue) := []
  closedCaptions : List (String × List ParsedMediaValue) := []
deriving Repr, DecidableEq

/-- The manifest object produced by the external m3u8-parser.  A missing
`mediaGroups` or `playlists` (or a missing manifest altogether) is `none`;
the constructor rejects both. -/
structure ParsedM3U8 where
  mediaGroups : Option ParsedMediaGroups := none
  playlists : Option (List Playlist) := none
deriving Repr, DecidableEq

/-- The two external collaborators of the M3U8 editor: the generic HLS tag
reader (black box) and the locale display-name lookup (`Intl.DisplayNames`,
black box). -/
structure M3U8Ext where
  parse : String → ParsedM3U8
  langName : String → String

/-- JavaScript `String.prototype.split` with a one-character separator (the
only form the source uses: `'\n'`, `','`, `'='`, `'x'`). -/
def splitOnChar (sep : Char) : List Char → List (List Char)
  | [] => [[]]
  | c :: rest =>
    let r := splitOnChar sep rest
    if c == sep then [] :: r
    else
      match r with
      | [] => [[c]]
      | h :: t => (c :: h) :: t

/-- `splitOnChar` over strings. -/
def strSplitOnChar (sep : Char) (s : String) : List String :=
  (splitOnChar sep s.toList).map String.mk

/-- Scan helper for the substring test: does `sub` occur in the list? -/
def charsHaveInfix (sub : List Char) : List Char → Bool
  | [] => sub.isEmpty
  | c :: rest => sub.isPrefixOf (c :: rest) || charsHaveInfix sub rest

/-- Substring test (JavaScript `line.includes(uri)`). -/
def strContains (l sub : String) : Bool :=
  charsHaveInfix sub.toList l.toList

/-- Try to read `CHANNELS="<digits>"` at the head of the character list. -/
def channelsHere (cs : List Char) : Option Nat :=
  let tag := "CHANNELS=\"".toList
  if cs.take tag.length = tag then
    let after := cs.drop tag.length
    let digits := after.takeWhile Char.isDigit
    if digits.isEmpty then none
    else
      match after.drop digits.length with
      | '"' :: _ => some (digits.foldl (fun acc c => acc * 10 + (c.toNat - 48)) 0)
      | _ => none
  else none

/-- First match of the regular expression `CHANNELS="(\d+)"` in a line. -/
def scanChannels : List Char → Option Nat
  | [] => none
  | c :: rest =>
    match channelsHere (c :: rest) with
    | some v => some v
    | none => scanChannels rest

/-- `parseChannelsFromMediaTag(uri)`: find the first manifest line containing
the URI, regex-extract `CHANNELS="N"`, default 2. -/
def M3U8Editor.parseChannelsFromMediaTag (manifestString uri : String) : Int :=
  match (splitOnChar '\n' manifestString.toList).find? (fun l => charsHaveInfix uri.toList l) with
  | none => 2
  | some line =>
    match scanChannels line with
    | some v => Int.ofNat v
    | none => 2

/-- `s.replace(/"/g, '')`: drop every double quote. -/
def stripQuotes (s : String) : String :=
  String.mk (s.toList.filter (fun c => c != '"'))

/-- JavaScript object assignment `acc[key] = value` on a string-keyed record:
an existing key is overwritten in place, a new key is appended.  The value is
`none` when the source stored `undefined`. -/
def recSet (m : List (String × Option String)) (k : String) (v : Option String) :
    List (String × Option String) :=
  if m.any (fun p => p.1 == k) then
    m.map (fun p => if p.1 == k then (k, v) else p)
  else m ++ [(k, v)]

/-- Property read `params[k]`: `none` models `undefined` (key absent or the
stored value was `undefined`). -/
def recGet (m : List (String × Option String)) (k : String) : Option String :=
  match m.find? (fun p => p.1 == k) with
  | some p => p.2
  | none => none

/-- Template-literal text of one component of `RESOLUTION.split('x').map(Number)`:
a missing component prints `undefined`, `NaN` prints `NaN`. -/
def resolutionPartText : Option (Option Int) → String
  | none => "undefined"
  | some none => "NaN"
  | some (some n) => Int.repr n

/-- One `#EXT-X-I-FRAME-STREAM-INF:` line of `parseIFrameStreams`: strip the
tag, split the parameter text on every comma (the code does not honour
quoting), split each piece at `=` into key and value, build the record, then
read the fields.  A missing `RESOLUTION`, `CODECS` or `URI` is a thrown
`TypeError` (the code dereferences the undefined value). -/
def parseIFrameLine (line : List Char) : Except String IFrameStream :=
  let paramChars := line.drop "#EXT-X-I-FRAME-STREAM-INF:".toList.length
  let pieces := (splitOnChar ',' paramChars).map (splitOnChar '=')
  let params := pieces.foldl
    (fun acc kv => recSet acc (String.mk (kv.headD [])) (kv[1]?.map String.mk)) []
  match recGet params "RESOLUTION" with
  | none => .error "TypeError: cannot read RESOLUTION"
  | some resText =>
    let parts := (strSplitOnChar 'x' resText).map jsNumber
    match recGet params "CODECS" with
    | none => .error "TypeError: cannot read CODECS"
    | some codecsRaw =>
      match recGet params "URI" with
      | none => .error "TypeError: cannot read URI"
      | some uriRaw =>
        .ok { bandwidth := (recGet params "BANDWIDTH").bind jsParseInt
              averageBandwidth := (recGet params "AVERAGE-BANDWIDTH").bind jsParseInt
              codecs := stripQuotes codecsRaw
              resolution := { width := parts[0]?.join, height := parts[1]?.join }
              videoRange := recGet params "VIDEO-RANGE"
              uri := stripQuotes uriRaw
              internalId := some (stripQuotes codecsRaw ++ "_" ++
                resolutionPartText parts[0]? ++ "x" ++ resolutionPartText parts[1]?) }

/-- `parseIFrameStreams()`: every `#EXT-X-I-FRAME-STREAM-INF:` line of the
raw manifest text, in order; the first thrown error aborts. -/
def M3U8Editor.parseIFrameStreams (manifestString : String) : Except String (List IFrameStream) :=
  ((splitOnChar '\n' manifestString.toList).filter
    (fun l => "#EXT-X-I-FRAME-STREAM-INF:".toList.isPrefixOf l)).mapM parseIFrameLine

/-- The `Media` record pushed by `initializeMediaGroup` for one parsed value:
display name from the locale lookup, `default` forced to `true` for
language `en`, channels scanned from the raw text for audio only. -/
def mkMedia (mediaType : MediaType) (withChannels : Bool) (manifestString : String)
    (langName : String → String) (key : String) (v : ParsedMediaValue) : Media :=
  { type := mediaType
    name := langName v.language
    group_id := key
    language := v.language
    uri := v.uri
    default := if v.language == "en" then some true else v.default
    autoselect := v.autoselect
    channels := if withChannels then some (M3U8Editor.parseChannelsFromMediaTag manifestString v.uri) else none }

/-- `initializeMediaGroup(groupType, targetArray)`: push one `Media` per
parsed value, group keys outer, values inner, in order. -/
def initializeMediaGroup (mediaType : MediaType) (withChannels : Bool) (manifestString : String)
    (langName : String → String) (tree : List (String × List ParsedMediaValue)) : List Media :=
  tree.flatMap (fun kv => kv.2.map (mkMedia mediaType withChannels manifestString langName kv.1))

/-- The M3U8Editor constructor: reject a non-string (`none`) or empty input,
run the external HLS reader, reject a manifest without `mediaGroups` or
`playlists`, then initialize the media groups (including the raw-text scans
for channels and I-frame streams).  An error thrown while scanning I-frame
lines propagates and no editor is produced. -/
def M3U8Editor.construct (ext : M3U8Ext) (input : Option String) : Except String M3U8Editor :=
  match input with
  | none => .error "Invalid M3U8 string provided"
  | some s =>
    if s == "" then .error "Invalid M3U8 string provided"
    else
      let tree := ext.parse s
      match tree.mediaGroups, tree.playlists with
      | some mg, some pls =>
        (M3U8Editor.parseIFrameStreams s).map (fun iframes =>
          { manifestString := s
            playlists := pls
            mediaGroups :=
              { audio := initializeMediaGroup .audio true s ext.langName mg.audio
                subtitles := initializeMediaGroup .SUBTITLES false s ext.langName mg.SUBTITLES
                closedCaptions := initializeMediaGroup .CLOSED_CAPTIONS false s ext.langName mg.closedCaptions
                iFrameStreams := iframes } })
      | _, _ => .error "Invalid M3U8 manifest structure"

/-- `getMediaUris()`. -/
def M3U8Editor.getMediaUris (ed : M3U8Editor) : UriList :=
  { audio := ed.mediaGroups.audio.map (fun m => m.uri)
    subtitles := ed.mediaGroups.subtitles.map (fun m => m.uri)
    closedCaptions := ed.mediaGroups.closedCaptions.map (fun m => m.uri)
    video := ed.playlists.map (fun p => p.uri)
    iframe := ed.mediaGroups.iFrameStreams.map (fun s => s.uri) }

/-- `addAudioRendition(groupId, language, name, uri, channels = 2)`. -/
def M3U8Editor.addAudioRendition (ed : M3U8Editor) (groupId language name uri : String)
    (channels : Int := 2) : M3U8Editor :=
  let audio : Media :=
    { type := .audio, group_id := groupId, language := language, name := name, uri := uri,
      default := some false, autoselect := some true, channels := some channels }
  { ed with mediaGroups.audio := ed.mediaGroups.audio ++ [audio] }

/-- `removeAudioRendition(language)`. -/
def M3U8Editor.removeAudioRendition (ed : M3U8Editor) (language : String) : M3U8Editor :=
  { ed with mediaGroups.audio :=
      ed.mediaGroups.audio.filter (fun m => m.type != .audio || m.language != language) }

/-- `addSubtitleRendition(groupId, language, name, uri)`. -/
def M3U8Editor.addSubtitleRendition (ed : M3U8Editor) (groupId language name uri : String) : M3U8Editor :=
  let subtitle : Media :=
    { type := .SUBTITLES, group_id := groupId, language := language, name := name, uri := uri,
      default := some false, autoselect := some true }
  { ed with mediaGroups.subtitles := ed.mediaGroups.subtitles ++ [subtitle] }

/-- `removeSubtitleRendition(language)`. -/
def M3U8Editor.removeSubtitleRendition (ed : M3U8Editor) (language : String) : M3U8Editor :=
  { ed with mediaGroups.subtitles :=
      ed.mediaGroups.subtitles.filter (fun m => m.type != .SUBTITLES || m.language != language) }

/-- The join-key template of `removeVideoRendition`:
`CODECS.split(',')[0] + '_' + RESOLUTION.width + 'x' + RESOLUTION.height`
over the matched playlist; a missing `CODECS` or `RESOLUTION` attribute is a
thrown `TypeError` (evaluation order as in the template literal). -/
def videoJoinKey (p : Playlist) : Except String String :=
  match p.attributes.codecs with
  | none => .error "TypeError: cannot read CODECS"
  | some c =>
    match p.attributes.resolution with
    | none => .error "TypeError: cannot read RESOLUTION"
    | some r => .ok ((strSplitOnChar ',' c).headD "" ++ "_" ++
        Int.repr r.width ++ "x" ++ Int.repr r.height)

/-- `Array.prototype.filter` with a callback that may throw: elements are
visited left to right and the first error aborts, as in JavaScript. -/
def exceptFilter {α : Type} (p : α → Except String Bool) : List α → Except String (List α)
  | [] => .ok []
  | x :: rest =>
    match p x with
    | .error e => .error e
    | .ok b =>
      match exceptFilter p rest with
      | .error e => .error e
      | .ok r => .ok (if b then x :: r else r)

/-- `removeVideoRendition(uri)`: find the variant by URI; when found, filter
the I-frame streams by the join key (computed inside the filter callback, so
a throw leaves every list untouched) and then splice the variant out. -/
def M3U8Editor.removeVideoRendition (ed : M3U8Editor) (uri : String) : Except String M3U8Editor :=
  match ed.playlists.findIdx? (fun p => p.uri == uri) with
  | none => .ok ed
  | some i =>
    match ed.playlists[i]? with
    | none => .ok ed
    | some p =>
      (exceptFilter (fun st => (videoJoinKey p).map (fun k => st.internalId != some k))
          ed.mediaGroups.iFrameStreams).map
        (fun newStreams =>
          { ed with
            mediaGroups.iFrameStreams := newStreams
            playlists := ed.playlists.eraseIdx i })

/-- `removeTrackByUri(uri)`: classify the URI against the five lists and
route to the matching removal; no list matching is a no-op. -/
def M3U8Editor.removeTrackByUri (ed : M3U8Editor) (uri : String) : Except String M3U8Editor :=
  let uriList := ed.getMediaUris
  if uriList.audio.contains uri then
    .ok { ed with mediaGroups.audio := ed.mediaGroups.audio.filter (fun m => m.uri != uri) }
  else if uriList.subtitles.contains uri then
    .ok { ed with mediaGroups.subtitles := ed.mediaGroups.subtitles.filter (fun m => m.uri != uri) }
  else if uriList.closedCaptions.contains uri then
    .ok { ed with mediaGroups.closedCaptions := ed.mediaGroups.closedCaptions.filter (fun m => m.uri != uri) }
  else if uriList.video.contains uri then
    ed.removeVideoRendition uri
  else if uriList.iframe.contains uri then
    .ok { ed with mediaGroups.iFrameStreams := ed.mediaGroups.iFrameStreams.filter (fun s => s.uri != uri) }
  else .ok ed

/-- JavaScript truthiness of an optional boolean field. -/
def boolTruthy (o : Option Bool) : Bool :=
  o.getD false

/-- Template text of an optional numeric attribute of the parse tree:
a missing attribute prints `undefined`. -/
def optIntText : Option Int → String
  | some n => Int.repr n
  | none => "undefined"

/-- Template text of an optional string attribute of the parse tree. -/
def optStrText : Option String → String
  | some v => v
  | none => "undefined"

/-- Template text of an I-frame numeric field (`parseInt` result): `NaN`
when the parse failed. -/
def iframeNumText : Option Int → String
  | some n => Int.repr n
  | none => "NaN"

/-- The parameter list of one `#EXT-X-MEDIA:` line of `toM3U8`.  The three
emission blocks of the source are identical except that only the audio block
appends `CHANNELS` (guarded by JavaScript truthiness, so a channel count of
0 is skipped); `withChannels` selects the audio variant.  `DEFAULT=NO` is
pushed unconditionally; the stored flags only reach the `CHARACTERISTICS`
value. -/
def mediaParams (withChannels : Bool) (m : Media) : List String :=
  ["TYPE=" ++ mediaTypeText m.type,
   "URI=\"" ++ m.uri ++ "\"",
   "GROUP-ID=\"" ++ m.group_id ++ "\"",
   "LANGUAGE=\"" ++ m.language ++ "\"",
   "NAME=\"" ++ m.name ++ "\""] ++
  ["DEFAULT=NO"] ++
  [if boolTruthy m.autoselect then "AUTOSELECT=YES" else "AUTOSELECT=NO"] ++
  ["CHARACTERISTICS=\"" ++ (if boolTruthy m.default then "DEFAULT=YES" else "DEFAULT=NO") ++
    ":" ++ (if boolTruthy m.autoselect then "AUTOSELECT=YES" else "AUTOSELECT=NO") ++ "\""] ++
  (if withChannels then
    match m.channels with
    | some c => if c != 0 then ["CHANNELS=\"" ++ Int.repr c ++ "\""] else []
    | none => []
  else [])

/-- JavaScript truthiness of an optional string attribute (an empty string
is falsy). -/
def strTruthy : Option String → Bool
  | some v => v != ""
  | none => false

/-- The parameter list of one `#EXT-X-STREAM-INF:` line: mandatory
bandwidth/codecs entries, then the optional attributes in source order;
`AUDIO`/`SUBTITLES` references are dropped when the matching group list is
empty. -/
def variantParams (audioCount subtitleCount : Nat) (p : Playlist) : List String :=
  ["BANDWIDTH=" ++ optIntText p.attributes.bandwidth,
   "AVERAGE-BANDWIDTH=" ++ optIntText p.attributes.averageBandwidth,
   "CODECS=\"" ++ optStrText p.attributes.codecs ++ "\""] ++
  (match p.attributes.resolution with
   | some r => ["RESOLUTION=" ++ Int.repr r.width ++ "x" ++ Int.repr r.height]
   | none => []) ++
  (if strTruthy p.attributes.frameRate then ["FRAME-RATE=" ++ optStrText p.attributes.frameRate] else []) ++
  (if strTruthy p.attributes.videoRange then ["VIDEO-RANGE=" ++ optStrText p.attributes.videoRange] else []) ++
  (if strTruthy p.attributes.audio && audioCount > 0 then
    ["AUDIO=\"" ++ optStrText p.attributes.audio ++ "\""] else []) ++
  (if strTruthy p.attributes.subtitles && subtitleCount > 0 then
    ["SUBTITLES=\"" ++ optStrText p.attributes.subtitles ++ "\""] else []) ++
  (if strTruthy p.attributes.closedCaptions then
    ["CLOSED-CAPTIONS=" ++ optStrText p.attributes.closedCaptions] else [])

/-- The parameter list of one `#EXT-X-I-FRAME-STREAM-INF:` line:
`CLOSED-CAPTIONS=NONE` is added only when no closed-caption rendition
exists.  (The `stream.resolution` guard of the source is always taken: the
parsed resolution is an object.) -/
def iframeParams (closedCaptionCount : Nat) (st : IFrameStream) : List String :=
  ["BANDWIDTH=" ++ iframeNumText st.bandwidth,
   "AVERAGE-BANDWIDTH=" ++ iframeNumText st.averageBandwidth,
   "CODECS=\"" ++ st.codecs ++ "\""] ++
  ["RESOLUTION=" ++ iframeNumText st.resolution.width ++ "x" ++ iframeNumText st.resolution.height] ++
  (if strTruthy st.videoRange then ["VIDEO-RANGE=" ++ optStrText st.videoRange] else []) ++
  (if closedCaptionCount == 0 then ["CLOSED-CAPTIONS=NONE"] else []) ++
  ["URI=\"" ++ st.uri ++ "\""]

/-- Replace every run of two or more newlines by exactly two
(`.replace(/\n{2,}/g, '\n\n')`); `seen` counts the newlines of the current
run already emitted. -/
def collapseGo : List Char → Nat → List Char
  | [], _ => []
  | c :: rest, seen =>
    if c == '\n' then
      if seen < 2 then c :: collapseGo rest (seen + 1) else collapseGo rest seen
    else c :: collapseGo rest 0

/-- String form of the newline-run collapse. -/
def collapseNewlineRuns (s : String) : String :=
  String.mk (collapseGo s.toList 0)

/-- `toM3U8()`: fixed section order with a `'\n'` spacer entry after each
section, joined by newlines, newline runs collapsed, one final newline. -/
def M3U8Editor.toM3U8 (ed : M3U8Editor) : String :=
  let base := ["#EXTM3U", "\n", "#EXT-X-INDEPENDENT-SEGMENTS", "\n"]
  let audioLines := ed.mediaGroups.audio.map
    (fun m => "#EXT-X-MEDIA:" ++ String.intercalate "," (mediaParams true m))
  let subtitleLines := ed.mediaGroups.subtitles.map
    (fun m => "#EXT-X-MEDIA:" ++ String.intercalate "," (mediaParams false m))
  let ccLines := ed.mediaGroups.closedCaptions.map
    (fun m => "#EXT-X-MEDIA:" ++ String.intercalate "," (mediaParams false m))
  let variantLines := ed.playlists.flatMap
    (fun p => ["#EXT-X-STREAM-INF:" ++ String.intercalate ","
      (variantParams ed.mediaGroups.audio.length ed.mediaGroups.subtitles.length p), p.uri])
  let iframeLines := ed.mediaGroups.iFrameStreams.map
    (fun st => "#EXT-X-I-FRAME-STREAM-INF:" ++ String.intercalate ","
      (iframeParams ed.mediaGroups.closedCaptions.length st))
  let allLines := base ++ audioLines ++ ["\n"] ++ subtitleLines ++ ["\n"] ++ ccLines ++ ["\n"] ++
    variantLines ++ ["\n"] ++ iframeLines
  collapseNewlineRuns (String.intercalate "\n" allLines) ++ "\n"

/-- `validateRoundTrip()` (instance): re-parse the current serialization
through a fresh editor and compare that editor's serialization against the
ORIGINAL manifest string of this editor. -/
def M3U8Editor.validateRoundTrip (ext : M3U8Ext) (ed : M3U8Editor) : Except String Bool :=
  (M3U8Editor.construct ext (some ed.toM3U8)).map (fun e2 => ed.manifestString == e2.toM3U8)

/-- Does a manifest string contain any line the external HLS reader would
turn into a media group or a playlist? -/
def hlsTagFree (s : String) : Bool :=
  (splitOnChar '\n' s.toList).all
    (fun l => !("#EXT-X-MEDIA:".toList.isPrefixOf l) && !("#EXT-X-STREAM-INF:".toList.isPrefixOf l))

/-- Modelled from the spec: the external m3u8-parser is a black box exposing
`mediaGroups` and `playlists`.  On a manifest with no `#EXT-X-MEDIA:` and no
`#EXT-X-STREAM-INF:` line it yields empty media groups and an empty playlist
list; this instance is defined (as empty trees) exactly on such strings and
is only applied to them.  The locale lookup returns the empty string on
every code (its contract for unknown codes). -/
def extEmptyModel : M3U8Ext :=
  { parse := fun s =>
      if hlsTagFree s then
        { mediaGroups := some {}, playlists := some [] }
      else { mediaGroups := none, playlists := none }
    langName := fun _ => "" }

/-- An M3U8 editor over the empty model whose stored manifest text `"X"` is
not its own serialization (the shape produced by constructing from the
string `"X"`, which the external reader parses to an empty manifest). -/
def m3u8EditorX : M3U8Editor :=
  { manifestString := "X", playlists := [], mediaGroups := {} }

/-- The serialization of the empty document: header tags only. -/
def m3u8HeaderText : String :=
  M3U8Editor.toM3U8 m3u8EditorX

/-- The editor reconstructed from `m3u8HeaderText`: same empty model, but
the stored manifest text is now the serialization itself. -/
def m3u8EditorH : M3U8Editor :=
  { manifestString := m3u8HeaderText, playlists := [], mediaGroups := {} }

/-- Dense-identifier property of an MPD document: adaptation-set ids are the
strings `"0" .. "n-1"` in list order, and inside every set the
representation ids are `"0" .. "m-1"` in list order. -/
def idsCanonical (doc : MPD) : Prop :=
  doc.Period.AdaptationSet.map AdaptationSet.id =
      (List.range doc.Period.AdaptationSet.length).map Nat.repr ∧
  ∀ s ∈ doc.Period.AdaptationSet,
    s.Representation.map MPDRepresentation.id =
      (List.range s.Representation.length).map Nat.repr

/-- A video variant whose `CODECS` holds two comma-separated codecs. -/
def commaCodecsPlaylist : Playlist :=
  { attributes :=
      { bandwidth := some 1000
        averageBandwidth := some 900
        codecs := some "avc1,mp4a"
        resolution := some { width := 100, height := 50 } }
    uri := "v" }

/-- An I-frame stream whose `internalId` equals the FULL codecs string of
`commaCodecsPlaylist` joined with its resolution. -/
def fullKeyIFrameStream : IFrameStream :=
  { bandwidth := some 10
    averageBandwidth := some 9
    codecs := "avc1,mp4a"
    resolution := { width := some 100, height := some 50 }
    uri := "if1"
    internalId := some "avc1,mp4a_100x50" }

/-- Editor holding `commaCodecsPlaylist` and `fullKeyIFrameStream`. -/
def commaCodecsEditor : M3U8Editor :=
  { manifestString := "m"
    playlists := [commaCodecsPlaylist]
    mediaGroups := { iFrameStreams := [fullKeyIFrameStream] } }

/-- A single-codec variant for the witness of the amended removal law. -/
def singleCodecPlaylist : Playlist :=
  { attributes :=
      { bandwidth := some 1000
        averageBandwidth := some 900
        codecs := some "avc1"
        resolution := some { width := 100, height := 50 } }
    uri := "v" }

/-- Editor holding `singleCodecPlaylist` plus the I-frame stream the
first-codec join key matches. -/
def singleCodecEditor : M3U8Editor :=
  { manifestString := "m"
    playlists := [singleCodecPlaylist]
    mediaGroups := { iFrameStreams :=
      [{ bandwidth := some 10
         averageBandwidth := some 9
         codecs := "avc1"
         resolution := { width := some 100, height := some 50 }
         uri := "if1"
         internalId := some "avc1_100x50" }] } }

/-- A variant that lacks the `CODECS` attribute, paired with one I-frame
stream so the join-key callback actually runs. -/
def missingCodecsEditor : M3U8Editor :=
  { manifestString := "m"
    playlists := [{ attributes := { bandwidth := some 1000 }, uri := "u" }]
    mediaGroups := { iFrameStreams :=
      [{ bandwidth := some 10
         averageBandwidth := some 9
         codecs := "avc1"
         resolution := { width := some 100, height := some 50 }
         uri := "if1"
         internalId := some "avc1_100x50" }] } }

/-- An MPD editor whose single audio set carries the non-dense id `"5"`. -/
def nonDenseMpdEditor : MPDEditor :=
  { mpd := { Period := { AdaptationSet :=
      [{ id := "5"
         contentType := "audio"
         lang := some "en"
         Representation := [
           { id := "7", bandwidth := "64000", codecs := "mp4a.40.2", mimeType := "audio/mp4",
             audioSamplingRate := some "48000" }] }] } } }

/-- The same document in canonical form (ids `"0"`/`"0"`). -/
def denseMpdEditor : MPDEditor :=
  { mpd := { Period := { AdaptationSet :=
      [{ id := "0"
         contentType := "audio"
         lang := some "en"
         Representation := [
           { id := "0", bandwidth := "64000", codecs := "mp4a.40.2", mimeType := "audio/mp4",
             audioSamplingRate := some "48000" }] }] } } }

/-- A small M3U8 editor with one English audio rendition, for the no-op
removal witness. -/
def oneAudioEditor : M3U8Editor :=
  { manifestString := "m"
    playlists := []
    mediaGroups := { audio :=
      [{ type := .audio, group_id := "aud", language := "en", name := "English",
         uri := "a.m3u8", default := some true, autoselect := some true, channels := some 2 }] } }

/-! ### Helper lemmas -/

theorem resetRepIds_map_id : ∀ (l : List MPDRepresentation) (i : Nat),
    (resetRepIds i l).map MPDRepresentation.id = (List.range' i l.length).map Nat.repr
  | [], _ => rfl
  | r :: rest, i => by
    simp only [resetRepIds, List.map_cons, List.length_cons, List.range']
    exact congrArg (Nat.repr i :: ·) (resetRepIds_map_id rest (i + 1))

theorem resetRepIds_length : ∀ (l : List MPDRepresentation) (i : Nat),
    (resetRepIds i l).length = l.length
  | [], _ => rfl
  | _ :: rest, i => congrArg (· + 1) (resetRepIds_length rest (i + 1))

theorem resetAdaptationIds_map_id : ∀ (l : List AdaptationSet) (i : Nat),
    (resetAdaptationIds i l).map AdaptationSet.id = (List.range' i l.length).map Nat.repr
  | [], _ => rfl
  | s :: rest, i => by
    simp only [resetAdaptationIds, List.map_cons, List.length_cons, List.range']
    exact congrArg (Nat.repr i :: ·) (resetAdaptationIds_map_id rest (i + 1))

theorem resetAdaptationIds_length : ∀ (l : List AdaptationSet) (i : Nat),
    (resetAdaptationIds i l).length = l.length
  | [], _ => rfl
  | _ :: rest, i => congrArg (· + 1) (resetAdaptationIds_length rest (i + 1))

theorem resetRepIds_canonical (l : List MPDRepresentation) :
    (resetRepIds 0 l).map MPDRepresentation.id =
      (List.range (resetRepIds 0 l).length).map Nat.repr := by
  rw [resetRepIds_length, List.range_eq_range']
  exact resetRepIds_map_id l 0

theorem resetIds_sets_length (doc : MPD) :
    (MPDEditor.resetIds doc).Period.AdaptationSet.length = doc.Period.AdaptationSet.length := by
  show ((resetAdaptationIds 0 doc.Period.AdaptationSet).map _).length = _
  rw [List.length_map, resetAdaptationIds_length]

theorem idsCanonical_resetIds (doc : MPD) : idsCanonical (MPDEditor.resetIds doc) := by
  constructor
  · rw [resetIds_sets_length, List.range_eq_range']
    show ((resetAdaptationIds 0 doc.Period.AdaptationSet).map _).map AdaptationSet.id = _
    rw [List.map_map]
    show (resetAdaptationIds 0 doc.Period.AdaptationSet).map AdaptationSet.id = _
    exact resetAdaptationIds_map_id doc.Period.AdaptationSet 0
  · intro s hs
    obtain ⟨t, _, rfl⟩ := List.mem_map.mp hs
    exact resetRepIds_canonical t.Representation

theorem exceptFilter_ok_of_const {α : Type} (f : α → Except String Bool) (q : α → Bool)
    (hf : ∀ x, f x = .ok (q x)) : ∀ l : List α, exceptFilter f l = .ok (l.filter q)
  | [] => rfl
  | x :: rest => by
    rw [exceptFilter, hf x, exceptFilter_ok_of_const f q hf rest, List.filter_cons]

theorem removeVideoRendition_eq_of_attrs (ed : M3U8Editor) (uri : String) (i : Nat)
    (p : Playlist) (c : String) (r : PlaylistResolution)
    (h1 : ed.playlists.findIdx? (fun q => q.uri == uri) = some i)
    (h2 : ed.playlists[i]? = some p)
    (h3 : p.attributes.codecs = some c)
    (h4 : p.attributes.resolution = some r) :
    M3U8Editor.removeVideoRendition ed uri =
      .ok { ed with
            mediaGroups.iFrameStreams :=
              ed.mediaGroups.iFrameStreams.filter
                (fun st => st.internalId != some ((strSplitOnChar ',' c).headD "" ++ "_" ++
                  Int.repr r.width ++ "x" ++ Int.repr r.height))
            playlists := ed.playlists.eraseIdx i } := by
  have hk : videoJoinKey p = .ok ((strSplitOnChar ',' c).headD "" ++ "_" ++
      Int.repr r.width ++ "x" ++ Int.repr r.height) := by
    rw [videoJoinKey, h3, h4]
  unfold M3U8Editor.removeVideoRendition
  rw [h1]
  dsimp only
  rw [h2]
  dsimp only
  rw [exceptFilter_ok_of_const _
    (fun st => st.internalId != some ((strSplitOnChar ',' c).headD "" ++ "_" ++
      Int.repr r.width ++ "x" ++ Int.repr r.height))
    (fun st => by rw [hk]; rfl)]
  rfl

theorem removeVideoRendition_no_match (ed : M3U8Editor) (uri : String)
    (h : ed.playlists.findIdx? (fun q => q.uri == uri) = none) :
    M3U8Editor.removeVideoRendition ed uri = .ok ed := by
  unfold M3U8Editor.removeVideoRendition
  rw [h]

theorem removeAudioRendition_no_match (ed : M3U8Editor) (language : String)
    (h : ∀ m ∈ ed.mediaGroups.audio, m.type = MediaType.audio → m.language ≠ language) :
    M3U8Editor.removeAudioRendition ed language = ed := by
  have hf : ed.mediaGroups.audio.filter
      (fun m => m.type != MediaType.audio || m.language != language) = ed.mediaGroups.audio := by
    rw [List.filter_eq_self]
    intro m hm
    rw [Bool.or_eq_true, bne_iff_ne, bne_iff_ne]
    by_cases ht : m.type = MediaType.audio
    · exact Or.inr (h m hm ht)
    · exact Or.inl ht
  unfold M3U8Editor.removeAudioRendition
  rw [hf]

theorem removeSubtitleRendition_no_match (ed : M3U8Editor) (language : String)
    (h : ∀ m ∈ ed.mediaGroups.subtitles, m.type = MediaType.SUBTITLES → m.language ≠ language) :
    M3U8Editor.removeSubtitleRendition ed language = ed := by
  have hf : ed.mediaGroups.subtitles.filter
      (fun m => m.type != MediaType.SUBTITLES || m.language != language) = ed.mediaGroups.subtitles := by
    rw [List.filter_eq_self]
    intro m hm
    rw [Bool.or_eq_true, bne_iff_ne, bne_iff_ne]
    by_cases ht : m.type = MediaType.SUBTITLES
    · exact Or.inr (h m hm ht)
    · exact Or.inl ht
  unfold M3U8Editor.removeSubtitleRendition
  rw [hf]

theorem removeTrackByUri_no_match (ed : M3U8Editor) (uri : String)
    (h1 : ed.getMediaUris.audio.contains uri = false)
    (h2 : ed.getMediaUris.subtitles.contains uri = false)
    (h3 : ed.getMediaUris.closedCaptions.contains uri = false)
    (h4 : ed.getMediaUris.video.contains uri = false)
    (h5 : ed.getMediaUris.iframe.contains uri = false) :
    M3U8Editor.removeTrackByUri ed uri = .ok ed := by
  unfold M3U8Editor.removeTrackByUri
  simp only [h1, h2, h3, h4, h5, Bool.false_eq_true, if_false]

theorem removeAudioStream_no_match (ed : MPDEditor) (lang : String)
    (h : ∀ s ∈ ed.mpd.Period.AdaptationSet, s.contentType = "audio" → s.lang ≠ some lang)
    (hc : MPDEditor.resetIds ed.mpd = ed.mpd) :
    MPDEditor.removeAudioStream ed lang = ed := by
  have hf : ed.mpd.Period.AdaptationSet.filter
      (fun s => s.contentType != "audio" || s.lang != some lang) = ed.mpd.Period.AdaptationSet := by
    rw [List.filter_eq_self]
    intro s hs
    rw [Bool.or_eq_true, bne_iff_ne, bne_iff_ne]
    by_cases ht : s.contentType = "audio"
    · exact Or.inr (h s hs ht)
    · exact Or.inl ht
  unfold MPDEditor.removeAudioStream
  rw [hf]
  show { mpd := MPDEditor.resetIds ed.mpd } = ed
  rw [hc]

theorem removeSubtitleStream_no_match (ed : MPDEditor) (lang : String)
    (h : ∀ s ∈ ed.mpd.Period.AdaptationSet, s.contentType = "text" → s.lang ≠ some lang)
    (hc : MPDEditor.resetIds ed.mpd = ed.mpd) :
    MPDEditor.removeSubtitleStream ed lang = ed := by
  have hf : ed.mpd.Period.AdaptationSet.filter
      (fun s => s.contentType != "text" || s.lang != some lang) = ed.mpd.Period.AdaptationSet := by
    rw [List.filter_eq_self]
    intro s hs
    rw [Bool.or_eq_true, bne_iff_ne, bne_iff_ne]
    by_cases ht : s.contentType = "text"
    · exact Or.inr (h s hs ht)
    · exact Or.inl ht
  unfold MPDEditor.removeSubtitleStream
  rw [hf]
  show { mpd := MPDEditor.resetIds ed.mpd } = ed
  rw [hc]

/-! ### Claim theorems -/

set_option maxRecDepth 10000 in
/-- C2: the claim states that the attribute split treats commas inside a
quoted value as non-separators, so `CODECS="avc1.64001f,mp4a.40.2"` yields a
single CODECS key with the embedded comma intact.  Evaluating the embedded
`parseIFrameStreams` at exactly that input shows the code splits inside the
quotes: the stored codecs value is the truncated `avc1.64001f`, not the full
comma-containing value the specification requires. -/
theorem claim_C2_attr_split_truncates :
    (M3U8Editor.parseIFrameStreams
        "#EXTM3U\n#EXT-X-I-FRAME-STREAM-INF:BANDWIDTH=100,AVERAGE-BANDWIDTH=90,CODECS=\"avc1.64001f,mp4a.40.2\",RESOLUTION=640x360,URI=\"iframe.m3u8\"").map
        (fun l => l.map (fun st => (st.codecs, st.internalId, st.uri))) =
      .ok [("avc1.64001f", some "avc1.64001f_640x360", "iframe.m3u8")] ∧
    "avc1.64001f" ≠ "avc1.64001f,mp4a.40.2" := by
  refine ⟨rfl, ?_⟩
  decide

/-- C3: after `removeAudioStream` or `removeSubtitleStream`, the
adaptation-set ids are exactly the strings `"0" .. "n-1"` in current order
and, inside every surviving set, the representation ids are exactly
`"0" .. "m-1"` in current order (both removals end in `resetIds`). -/
theorem claim_C3_removal_renumbers_ids (ed : MPDEditor) (lang : String) :
    idsCanonical (ed.removeAudioStream lang).mpd ∧
    idsCanonical (ed.removeSubtitleStream lang).mpd :=
  ⟨idsCanonical_resetIds _, idsCanonical_resetIds _⟩

/-- C4: the claim (with the specification) requires
`addSubtitleStream(lang, vttFileSize, 0)` to fail fast with a reportable
error.  The code instead performs the JavaScript division: evaluating the
embedded editor at duration 0 shows the call succeeds and stores the
bandwidth string `Infinity` in the new representation. -/
theorem claim_C4_zero_duration_stores_infinity :
    (MPDEditor.addSubtitleStream mpdEmptyEditor "en" 1000 0).mpd.Period.AdaptationSet.map
        (fun s => (s.contentType, s.lang, s.Representation.map (fun r => r.bandwidth))) =
      [("text", some "en", ["Infinity"])] := by
  have hb : jsSubtitleBandwidth 1000 0 = "Infinity" := by
    unfold jsSubtitleBandwidth
    norm_num
  unfold MPDEditor.addSubtitleStream
  rw [hb]
  rfl

/-- C5 counterexample: the claim says the I-frame join key is the FULL
`codecs + "_" + width + "x" + height` of the removed variant.  For the
variant with `CODECS = "avc1,mp4a"` the code keys on the first
comma-separated codec only: removing the variant leaves alive the I-frame
stream whose `internalId` equals exactly the full-codecs join key that the
claim says must be removed. -/
theorem claim_C5_counterexample :
    (M3U8Editor.removeVideoRendition commaCodecsEditor "v").map
        (fun e => (e.playlists.length, e.mediaGroups.iFrameStreams.map (fun st => st.internalId))) =
      .ok (0, [some "avc1,mp4a_100x50"]) ∧
    fullKeyIFrameStream.internalId = some ("avc1,mp4a" ++ "_" ++ "100" ++ "x" ++ "50") :=
  ⟨rfl, rfl⟩

/-- C5 amended: `removeVideoRendition(uri)` removes the matched variant and
every I-frame stream whose `internalId` equals the join key built from the
FIRST comma-separated component of the variant's CODECS (not the full
codecs string) and its resolution; a URI with no matching variant removes
nothing. -/
theorem claim_C5_amended :
    (∀ (ed : M3U8Editor) (uri : String) (i : Nat) (p : Playlist) (c : String)
        (r : PlaylistResolution),
      ed.playlists.findIdx? (fun q => q.uri == uri) = some i →
      ed.playlists[i]? = some p →
      p.attributes.codecs = some c →
      p.attributes.resolution = some r →
      M3U8Editor.removeVideoRendition ed uri =
        .ok { ed with
              mediaGroups.iFrameStreams :=
                ed.mediaGroups.iFrameStreams.filter
                  (fun st => st.internalId != some ((strSplitOnChar ',' c).headD "" ++ "_" ++
                    Int.repr r.width ++ "x" ++ Int.repr r.height))
              playlists := ed.playlists.eraseIdx i }) ∧
    (∀ (ed : M3U8Editor) (uri : String),
      ed.playlists.findIdx? (fun q => q.uri == uri) = none →
      M3U8Editor.removeVideoRendition ed uri = .ok ed) :=
  ⟨removeVideoRendition_eq_of_attrs, removeVideoRendition_no_match⟩

/-- C5 witness: the amended law evaluated on a single-codec variant removes
both the variant and its matching I-frame stream. -/
theorem claim_C5_witness :
    (M3U8Editor.removeVideoRendition singleCodecEditor "v").map
        (fun e => (e.playlists.length, e.mediaGroups.iFrameStreams.length)) = .ok (0, 0) := by
  rw [claim_C5_amended.1 singleCodecEditor "v" 0 singleCodecPlaylist "avc1"
    { width := 100, height := 50 } rfl rfl rfl rfl]
  rfl

/-- C10: when the matched variant carries both a CODECS string and a
RESOLUTION object, `removeVideoRendition` never errors; and on a concrete
document whose matched variant lacks CODECS (with a non-empty I-frame list,
so the join-key callback runs) the call throws a TypeError while computing
the join key, producing no mutated document, so both lists stay as they
were. -/
theorem claim_C10_join_key_totality :
    (∀ (ed : M3U8Editor) (uri : String) (i : Nat) (p : Playlist) (c : String)
        (r : PlaylistResolution),
      ed.playlists.findIdx? (fun q => q.uri == uri) = some i →
      ed.playlists[i]? = some p →
      p.attributes.codecs = some c →
      p.attributes.resolution = some r →
      ∃ ed2, M3U8Editor.removeVideoRendition ed uri = .ok ed2) ∧
    M3U8Editor.removeVideoRendition missingCodecsEditor "u" =
      .error "TypeError: cannot read CODECS" :=
  ⟨fun ed uri i p c r h1 h2 h3 h4 =>
    ⟨_, removeVideoRendition_eq_of_attrs ed uri i p c r h1 h2 h3 h4⟩, rfl⟩

/-- C10 witness: the totality part evaluated at a concrete well-attributed
document. -/
theorem claim_C10_witness :
    ∃ ed2, M3U8Editor.removeVideoRendition singleCodecEditor "v" = .ok ed2 :=
  claim_C10_join_key_totality.1 singleCodecEditor "v" 0 singleCodecPlaylist "avc1"
    { width := 100, height := 50 } rfl rfl rfl rfl

/-- C6 counterexample: the claim says a removal by an absent language leaves
the serialized output byte-identical for MPD documents too.  On a document
whose single audio set has the non-dense id `"5"`, removing the absent
language `"zz"` removes nothing but `resetIds` renumbers the id to `"0"`,
so the serialization changes. -/
theorem claim_C6_counterexample :
    (nonDenseMpdEditor.mpd.Period.AdaptationSet.all
        (fun s => !(s.contentType == "audio" && s.lang == some "zz")) = true) ∧
    (nonDenseMpdEditor.removeAudioStream "zz").toXML ≠ nonDenseMpdEditor.toXML := by
  refine ⟨rfl, ?_⟩
  decide

/-- C6 amended: a removal by an absent language or URI is a successful no-op
with byte-identical serialized output for every M3U8 removal
(`removeAudioRendition`, `removeSubtitleRendition`, `removeTrackByUri`); for
the MPD removals (`removeAudioStream`, `removeSubtitleStream`) the same
holds provided the document ids are already in the canonical dense form
that `resetIds` fixes (otherwise the no-op removal renumbers them). -/
theorem claim_C6_amended :
    (∀ (ed : M3U8Editor) (language : String),
      (∀ m ∈ ed.mediaGroups.audio, m.type = MediaType.audio → m.language ≠ language) →
      (ed.removeAudioRendition language).toM3U8 = ed.toM3U8) ∧
    (∀ (ed : M3U8Editor) (language : String),
      (∀ m ∈ ed.mediaGroups.subtitles, m.type = MediaType.SUBTITLES → m.language ≠ language) →
      (ed.removeSubtitleRendition language).toM3U8 = ed.toM3U8) ∧
    (∀ (ed : M3U8Editor) (uri : String),
      ed.getMediaUris.audio.contains uri = false →
      ed.getMediaUris.subtitles.contains uri = false →
      ed.getMediaUris.closedCaptions.contains uri = false →
      ed.getMediaUris.video.contains uri = false →
      ed.getMediaUris.iframe.contains uri = false →
      M3U8Editor.removeTrackByUri ed uri = .ok ed) ∧
    (∀ (ed : MPDEditor) (lang : String),
      (∀ s ∈ ed.mpd.Period.AdaptationSet, s.contentType = "audio" → s.lang ≠ some lang) →
      MPDEditor.resetIds ed.mpd = ed.mpd →
      (ed.removeAudioStream lang).toXML = ed.toXML) ∧
    (∀ (ed : MPDEditor) (lang : String),
      (∀ s ∈ ed.mpd.Period.AdaptationSet, s.contentType = "text" → s.lang ≠ some lang) →
      MPDEditor.resetIds ed.mpd = ed.mpd →
      (ed.removeSubtitleStream lang).toXML = ed.toXML) :=
  ⟨fun ed language h => congrArg M3U8Editor.toM3U8 (removeAudioRendition_no_match ed language h),
   fun ed language h => congrArg M3U8Editor.toM3U8 (removeSubtitleRendition_no_match ed language h),
   fun ed uri h1 h2 h3 h4 h5 => removeTrackByUri_no_match ed uri h1 h2 h3 h4 h5,
   fun ed lang h hc => congrArg MPDEditor.toXML (removeAudioStream_no_match ed lang h hc),
   fun ed lang h hc => congrArg MPDEditor.toXML (removeSubtitleStream_no_match ed lang h hc)⟩

/-- C6 witness: the amended no-op law evaluated on concrete documents: an
M3U8 editor with one English audio rendition loses nothing when removing
French, and a canonical-id MPD document serializes identically after
removing an absent language. -/
theorem claim_C6_witness :
    (oneAudioEditor.removeAudioRendition "fr").toM3U8 = oneAudioEditor.toM3U8 ∧
    (denseMpdEditor.removeAudioStream "fr").toXML = denseMpdEditor.toXML := by
  constructor
  · refine claim_C6_amended.1 oneAudioEditor "fr" ?_
    intro m hm _
    have hme := List.mem_singleton.mp hm
    subst hme
    decide
  · refine claim_C6_amended.2.2.2.1 denseMpdEditor "fr" ?_ rfl
    intro s hs _
    have hse := List.mem_singleton.mp hs
    subst hse
    decide

/-- C7 counterexample: the claim says a DASH input with a malformed root
raises a construction error instead of producing a document.  The MPD
constructor contains no throw site: from a parse tree with no `Period` it
produces the document with an empty adaptation-set list. -/
theorem claim_C7_counterexample :
    MPDEditor.construct { Period := none } =
      { mpd := { Period := { AdaptationSet := [] } } } := rfl

/-- C7 amended: the M3U8 constructor fails fast exactly as claimed — a
non-string or empty input and a manifest without `mediaGroups` or without
`playlists` each produce a construction error and no editor — while the MPD
constructor never raises for a malformed root: it defaults the
adaptation-set list of `parsed.Period?.AdaptationSet || []` to empty. -/
theorem claim_C7_amended :
    (∀ ext : M3U8Ext, M3U8Editor.construct ext none = .error "Invalid M3U8 string provided") ∧
    (∀ ext : M3U8Ext, M3U8Editor.construct ext (some "") = .error "Invalid M3U8 string provided") ∧
    (∀ (ext : M3U8Ext) (s : String), s ≠ "" → (ext.parse s).mediaGroups = none →
      M3U8Editor.construct ext (some s) = .error "Invalid M3U8 manifest structure") ∧
    (∀ (ext : M3U8Ext) (s : String), s ≠ "" → (ext.parse s).playlists = none →
      M3U8Editor.construct ext (some s) = .error "Invalid M3U8 manifest structure") ∧
    (∀ tree : ParsedMPDTree, MPDEditor.construct tree =
      { mpd := { Period := { AdaptationSet := (tree.Period.bind MPDPeriodTree.AdaptationSet).getD [] } } }) := by
  refine ⟨fun ext => rfl, fun ext => rfl, ?_, ?_, fun tree => rfl⟩
  · intro ext s hs hm
    unfold M3U8Editor.construct
    dsimp only
    rw [if_neg (by simpa using hs), hm]
  · intro ext s hs hp
    unfold M3U8Editor.construct
    dsimp only
    rw [if_neg (by simpa using hs), hp]
    cases hm : (ext.parse s).mediaGroups <;> rfl

/-- C7 witness: the amended constructor law at concrete inputs: a missing
input string and a manifest the external reader cannot give structure to. -/
theorem claim_C7_witness :
    M3U8Editor.construct extEmptyModel none = .error "Invalid M3U8 string provided" ∧
    M3U8Editor.construct extEmptyModel (some "#EXT-X-MEDIA:x") =
      .error "Invalid M3U8 manifest structure" :=
  ⟨claim_C7_amended.1 extEmptyModel,
   claim_C7_amended.2.2.1 extEmptyModel "#EXT-X-MEDIA:x" (by decide) rfl⟩

/-- C8: during construction every parsed media value with language `en` has
its stored default flag forced to `true` (overriding the parsed flag); and
serialization pushes the literal `DEFAULT=NO` as the sixth parameter of
every `#EXT-X-MEDIA:` line regardless of the stored flag, which surfaces
only in the `CHARACTERISTICS` parameter (element 7): changing the stored
flag changes the emitted parameter list only at that position. -/
theorem claim_C8_default_flag :
    (∀ (mt : MediaType) (wc : Bool) (ms : String) (ln : String → String) (key : String)
        (v : ParsedMediaValue),
      v.language = "en" → (mkMedia mt wc ms ln key v).default = some true) ∧
    (∀ (wc : Bool) (m : Media), (mediaParams wc m)[5]? = some "DEFAULT=NO") ∧
    (∀ (wc : Bool) (m : Media) (b : Option Bool),
      mediaParams wc { m with default := b } =
        (mediaParams wc m).set 7 ("CHARACTERISTICS=\"" ++
          (if boolTruthy b then "DEFAULT=YES" else "DEFAULT=NO") ++ ":" ++
          (if boolTruthy m.autoselect then "AUTOSELECT=YES" else "AUTOSELECT=NO") ++ "\"")) := by
  refine ⟨?_, ?_, ?_⟩
  · intro mt wc ms ln key v h
    simp [mkMedia, h]
  · intro wc m
    rfl
  · intro wc m b
    rfl

/-- C8 witness: the forcing clause at a concrete English value whose parsed
default flag is `false`. -/
theorem claim_C8_witness :
    (mkMedia MediaType.audio true "" (fun _ => "English") "aud"
        { language := "en", uri := "u", default := some false, autoselect := none }).default =
      some true :=
  claim_C8_default_flag.1 MediaType.audio true "" (fun _ => "English") "aud"
    { language := "en", uri := "u", default := some false, autoselect := none } rfl

/-- C9: with a positive duration, `addSubtitleStream(lang, f, d)` appends a
text adaptation set whose single representation stores the bandwidth string
`round(8 * f / d)` with nearest-integer (half-up) rounding — `round` here is
the mathematical rounding function, matching the words of the
specification. -/
theorem claim_C9_subtitle_bandwidth (ed : MPDEditor) (lang : String) (f d : ℚ) (h : 0 < d) :
    ((ed.addSubtitleStream lang f d).mpd.Period.AdaptationSet.getLast?).map
        (fun s => (s.contentType, s.lang,
          s.Representation.map (fun r => (r.bandwidth, r.codecs, r.mimeType)))) =
      some ("text", some lang, [(Int.repr (round (8 * f / d)), "stpp", "text/vtt")]) := by
  have hb : jsSubtitleBandwidth f d = Int.repr (round (8 * f / d)) := by
    unfold jsSubtitleBandwidth
    rw [if_neg h.ne', round_eq]
  unfold MPDEditor.addSubtitleStream
  rw [hb]
  dsimp only
  rw [List.getLast?_concat]
  rfl

/-- C9 witness: `addSubtitleStream(lang, 1000, 60)` stores bandwidth `133`
(`round(8000/60) = round(133.33) = 133`). -/
theorem claim_C9_witness :
    ((MPDEditor.addSubtitleStream mpdEmptyEditor "en" 1000 60).mpd.Period.AdaptationSet.getLast?).map
        (fun s => (s.contentType, s.lang,
          s.Representation.map (fun r => (r.bandwidth, r.codecs, r.mimeType)))) =
      some ("text", some "en", [("133", "stpp", "text/vtt")]) := by
  rw [claim_C9_subtitle_bandwidth mpdEmptyEditor "en" 1000 60 (by norm_num)]
  have h133 : round ((8:ℚ) * 1000 / 60) = (133:ℤ) := by
    rw [round_eq]
    norm_num
  rw [h133]
  rfl

/-- C1 counterexample: take the editor whose stored manifest text `"X"` is
not its own serialization.  Its serialization is stable — reconstructing
from it and serializing again reproduces it byte for byte — yet the
instance `validateRoundTrip` returns `false`, because the code compares the
re-serialization against the ORIGINAL input text, not against the first
serialization as the claim states. -/
theorem claim_C1_counterexample :
    M3U8Editor.construct extEmptyModel (some (M3U8Editor.toM3U8 m3u8EditorX)) = .ok m3u8EditorH ∧
    M3U8Editor.toM3U8 m3u8EditorH = M3U8Editor.toM3U8 m3u8EditorX ∧
    M3U8Editor.validateRoundTrip extEmptyModel m3u8EditorX = .ok false :=
  ⟨rfl, rfl, rfl⟩

/-- C1 amended: `MPDEditor.validateRoundTrip` (static) certifies serializer
self-stability exactly as claimed — it returns true precisely when the
serialization of the reconstructed document equals the first serialization;
the instance `M3U8Editor.validateRoundTrip` instead returns true precisely
when the re-serialization equals the ORIGINAL manifest text the editor was
constructed from. -/
theorem claim_C1_roundtrip_amended :
    (∀ (pf : String → ParsedMPDTree) (s : String),
      MPDEditor.validateRoundTrip pf s = true ↔
        (MPDEditor.construct (pf (MPDEditor.construct (pf s)).toXML)).toXML =
          (MPDEditor.construct (pf s)).toXML) ∧
    (∀ (ext : M3U8Ext) (ed ed2 : M3U8Editor),
      M3U8Editor.construct ext (some ed.toM3U8) = .ok ed2 →
      (M3U8Editor.validateRoundTrip ext ed = .ok true ↔ ed.manifestString = ed2.toM3U8)) := by
  constructor
  · intro pf s
    unfold MPDEditor.validateRoundTrip
    exact beq_iff_eq
  · intro ext ed ed2 h
    unfold M3U8Editor.validateRoundTrip
    rw [h]
    simp [Except.map, beq_iff_eq]

/-- C1 witness: both halves of the amended law at concrete inputs: the
header-only M3U8 editor (whose stored text IS its serialization) validates
true, and the MPD static validation over a no-adaptation-set parse returns
true. -/
theorem claim_C1_witness :
    M3U8Editor.validateRoundTrip extEmptyModel m3u8EditorH = .ok true ∧
    MPDEditor.validateRoundTrip mpdParseEmptyModel "" = true :=
  ⟨(claim_C1_roundtrip_amended.2 extEmptyModel m3u8EditorH m3u8EditorH rfl).mpr rfl,
   (claim_C1_roundtrip_amended.1 mpdParseEmptyModel "").mpr rfl⟩
